import Mathlib

/-!
Shallow embedding of `src/tools/log_receiver.py` (the PoseTrainer debug
log sink).

The `LogReceiver` HTTP handler is modelled as pure functions from the
request data to a `HandlerResult` (console lines printed for the record,
whether the operator-side error note was printed, and the HTTP
response).  Library calls of the Python runtime that the handler makes
(`dict.get`, `str.upper`, slicing, `int(...)`, truthiness, `str(...)`
formatting) are embedded as explicit functions on a `Json` value type;
exceptions raised by those calls are threaded as `Except PyErr`,
mirroring the single `try`/`except` of `do_POST`.  The outcome of
`json.loads(post_data.decode(...))` — a library call on the raw body
bytes — is abstracted as an input of type `Except Unit Json`
(`.error ()` = the body is not valid UTF-8 text or not valid JSON
syntax, `.ok j` = it parsed to the JSON value `j`).
-/

namespace LogReceiver

/-- A JSON value as produced by the Python `json.loads`:
`null`/`True`/`False`/number/string/list/dict.  Numbers are modelled as
`Int` (the claims never involve fractional numbers).  An object is its
key/value list in source order; Python dict construction makes a
duplicated key keep its last occurrence, which `dictGet` below
implements. -/
inductive Json where
  | null : Json
  | bool (b : Bool) : Json
  | num (n : Int) : Json
  | str (s : String) : Json
  | arr (xs : List Json) : Json
  | obj (kvs : List (String × Json)) : Json

/-- Whether a JSON value is a top-level object (a Python `dict`). -/
def Json.isObj : Json → Bool
  | .obj _ => true
  | _ => false

/-- The Python exceptions the handler can raise inside its `try` block. -/
inductive PyErr where
  | typeError : PyErr
  | valueError : PyErr
  | attributeError : PyErr
  | malformed : PyErr
deriving DecidableEq, Repr

/-- `d.get(key, default)` on a Python dict built from a JSON object:
the last binding of the key wins (later JSON keys overwrite earlier ones
when `json.loads` builds the dict). -/
def dictGet : List (String × Json) → String → Option Json
  | [], _ => none
  | (k, v) :: rest, key =>
    match dictGet rest key with
    | some w => some w
    | none => if k = key then some v else none

/-- Python truthiness (`if tag:`) of a value obtained from `json.loads`. -/
def pyTruthy : Json → Bool
  | .null => false
  | .bool b => b
  | .num n => n ≠ 0
  | .str s => !(s == "")
  | .arr xs => !xs.isEmpty
  | .obj kvs => !kvs.isEmpty

mutual
/-- Python `repr` of a value obtained from `json.loads` (exact on
`None`/booleans/integers; string escaping inside containers is not
modelled — the claims only exercise scalar and string fields). -/
def pyRepr : Json → String
  | .null => "None"
  | .bool true => "True"
  | .bool false => "False"
  | .num n => toString n
  | .str s => "\x27" ++ s ++ "\x27"
  | .arr xs => "[" ++ pyReprList xs ++ "]"
  | .obj kvs => "\x7b" ++ pyReprObj kvs ++ "\x7d"

def pyReprList : List Json → String
  | [] => ""
  | [x] => pyRepr x
  | x :: y :: rest => pyRepr x ++ ", " ++ pyReprList (y :: rest)

def pyReprObj : List (String × Json) → String
  | [] => ""
  | [(k, v)] => "\x27" ++ k ++ "\x27: " ++ pyRepr v
  | (k, v) :: kv :: rest => "\x27" ++ k ++ "\x27: " ++ pyRepr v ++ ", " ++ pyReprObj (kv :: rest)
end

/-- Python `str()` / f-string formatting of a value obtained from
`json.loads`: a string formats to itself, everything else to its
`repr`. -/
def pyStr : Json → String
  | .str s => s
  | v => pyRepr v

/-- Python `str.upper` (exact on ASCII, which is all the claims use). -/
def asciiUpper (s : String) : String :=
  String.mk (s.toList.map Char.toUpper)

/-- ASCII lowercasing, for case-insensitive HTTP header-name
comparison. -/
def asciiLower (s : String) : String :=
  String.mk (s.toList.map Char.toLower)

/-- `v.upper()` on a JSON field value: only a string has an `upper`
method; any other value raises `AttributeError`. -/
def pyUpper : Json → Except PyErr String
  | .str s => .ok (asciiUpper s)
  | _ => .error .attributeError

/-- `timestamp[11:19]`: slicing works on a string (substring of
characters 11..18) and on a list (sublist); any other value raises
`TypeError`. -/
def timeSlice : Json → Except PyErr Json
  | .str s => .ok (.str (String.mk ((s.toList.drop 11).take 8)))
  | .arr xs => .ok (.arr ((xs.drop 11).take 8))
  | _ => .error .typeError

/-- The `colors` dict lookup `colors.get(level, ...)` with default empty
string: `DEBUG`/`INFO`/`WARNING`/`ERROR` map to ANSI color codes, any
other level to the empty string. -/
def colorFor (level : String) : String :=
  if level = "DEBUG" then "\x1b[37m"
  else if level = "INFO" then "\x1b[36m"
  else if level = "WARNING" then "\x1b[33m"
  else if level = "ERROR" then "\x1b[31m"
  else ""

/-- `reset_color`, the ANSI reset code. -/
def resetColor : String := "\x1b[0m"

/-- The format spec `\x7blevel:7\x7d` of the f-string: Python
left-aligns a string in the field, appending spaces up to width 7 (no
change when the string is already 7 characters or longer). -/
def pyFormatWidth7 (s : String) : String :=
  s ++ String.mk (List.replicate (7 - s.length) ' ')

/-- Python whitespace characters stripped by `int(str)`. -/
def isPyWs (c : Char) : Bool :=
  c = ' ' || c = '\t' || c = '\n' || c = '\r' || c = '\x0b' || c = '\x0c'

/-- Digit tail of a Python integer literal: digits with single
underscores allowed between digits (`int("1_0")` is 10; a leading,
trailing or doubled underscore is rejected). -/
def pyDigits (acc : Nat) : List Char → Option Nat
  | [] => some acc
  | '_' :: c :: rest =>
    if c.isDigit then pyDigits (acc * 10 + (c.toNat - 48)) rest else none
  | c :: rest =>
    if c.isDigit then pyDigits (acc * 10 + (c.toNat - 48)) rest else none

/-- Unsigned digit string (nonempty, starting with a digit). -/
def pyDigitsStart : List Char → Option Nat
  | [] => none
  | c :: rest => if c.isDigit then pyDigits (c.toNat - 48) rest else none

/-- Python `int(s)` for a string `s`: strip whitespace, optional sign,
then decimal digits (ASCII; Python additionally accepts Unicode decimal
digits, which no claim exercises).  `none` models the `ValueError` that
`int` raises on anything else. -/
def pyIntParse (s : String) : Option Int :=
  let core := ((s.toList.dropWhile isPyWs).reverse.dropWhile isPyWs).reverse
  match core with
  | '+' :: rest => (pyDigitsStart rest).map Int.ofNat
  | '-' :: rest => (pyDigitsStart rest).map (fun n => -(Int.ofNat n))
  | rest => (pyDigitsStart rest).map Int.ofNat

/-- `int(self.headers[...])` for the Content-Length header: a missing
header makes the lookup return `None` and `int(None)` raise
`TypeError`; a present header value that `int` cannot parse raises
`ValueError`. -/
def pyIntOfHeader : Option String → Except PyErr Int
  | none => .error .typeError
  | some s =>
    match pyIntParse s with
    | some n => .ok n
    | none => .error .valueError

/-- The normalized record extracted by lines 30-34 of `do_POST`:
`timestamp`/`message`/`tag`/`error` keep whatever JSON value the body
carried (defaulted only when the key is absent), `level` is the result
of `.upper()` and hence a string. -/
structure LogRecord where
  timestamp : Json
  level : String
  message : Json
  tag : Json
  error : Json

/-- Lines 30-34 of `do_POST`: the five `log_entry.get(...)` calls plus
`.upper()` on the level.  A non-dict top-level value has no `.get`
method (`AttributeError`); a `.get` default applies only to an absent
key — a present value is taken as-is whatever its type, and a
non-string level makes `.upper()` raise `AttributeError`. -/
def decodeRecord (j : Json) (now : String) : Except PyErr LogRecord :=
  match j with
  | .obj kvs =>
    match pyUpper ((dictGet kvs "level").getD (.str "INFO")) with
    | .error e => .error e
    | .ok lvl =>
      .ok { timestamp := (dictGet kvs "timestamp").getD (.str now)
            level := lvl
            message := (dictGet kvs "message").getD (.str "")
            tag := (dictGet kvs "tag").getD (.str "")
            error := (dictGet kvs "error").getD (.str "") }
  | _ => .error .attributeError

/-- Lines 37-54 of `do_POST`: color selection, `timestamp[11:19]`, the
tag bracket, the composed `log_line`, and the optional indented error
line.  The only raising step is the slice, which precedes the first
`print`; the returned list is the console lines printed for the
record. -/
def formatRecord (r : LogRecord) : Except PyErr (List String) :=
  match timeSlice r.timestamp with
  | .error e => .error e
  | .ok timeStr =>
    let color := colorFor r.level
    let tagStr := if pyTruthy r.tag then "[" ++ pyStr r.tag ++ "] " else ""
    let logLine :=
      pyStr timeStr ++ " " ++ color ++ pyFormatWidth7 r.level ++ resetColor
        ++ " " ++ tagStr ++ pyStr r.message
    let errLines :=
      if pyTruthy r.error then
        ["         " ++ color ++ "ERROR:" ++ resetColor ++ " " ++ pyStr r.error]
      else []
    .ok (logLine :: errLines)

/-- An HTTP response as the handler builds it: status, the headers the
handler itself sends via `send_header` (the `http.server` framework
adds `Server` and `Date` to every response), and the body bytes it
writes. -/
structure Response where
  status : Nat
  headers : List (String × String)
  body : String
deriving DecidableEq, Repr

/-- Result of one handler invocation: the console lines printed for the
record, whether the operator-side `Error processing log:` note was
printed, and the HTTP response. -/
structure HandlerResult where
  recordLines : List String
  errorNoted : Bool
  response : Response
deriving DecidableEq, Repr

/-- HTTP header names compare case-insensitively; this checks that a
response carries a header with the given (case-insensitive) name and
exact value. -/
def hasHeaderCI (r : Response) (name val : String) : Bool :=
  r.headers.any fun kv => asciiLower kv.1 == asciiLower name && kv.2 == val

/-- The body of the `try` block of `do_POST` for path `/logs`:
`int(Content-Length)`, body parse (`json.loads` on the decoded bytes,
abstracted by the `parse` input), field extraction, formatting.
Returns the console lines of the record, or the first exception. -/
def postLogsLines (contentLength : Option String) (parse : Except Unit Json)
    (now : String) : Except PyErr (List String) :=
  match pyIntOfHeader contentLength with
  | .error e => .error e
  | .ok _ =>
    match parse with
    | .error _ => .error .malformed
    | .ok j =>
      match decodeRecord j now with
      | .error e => .error e
      | .ok r => formatRecord r

/-- `do_POST`: on path `/logs` run the `try` block; success prints the
record lines and answers `200`/`OK` with the two explicit headers, any
exception prints the operator note and answers `400` with no explicit
headers and an empty body; any other path answers `404`, empty body. -/
def do_POST (path : String) (contentLength : Option String)
    (parse : Except Unit Json) (now : String) : HandlerResult :=
  if path = "/logs" then
    match postLogsLines contentLength parse now with
    | .ok lines =>
      { recordLines := lines
        errorNoted := false
        response :=
          { status := 200
            headers := [("Content-type", "text/plain"),
                        ("Access-Control-Allow-Origin", "*")]
            body := "OK" } }
    | .error _ =>
      { recordLines := []
        errorNoted := true
        response := { status := 400, headers := [], body := "" } }
  else
    { recordLines := []
      errorNoted := false
      response := { status := 404, headers := [], body := "" } }

/-- `do_OPTIONS`: answers every request with `200` and the three CORS
headers, ignoring the request path and never reading the request body
(both inputs are unused, exactly as in the source). -/
def do_OPTIONS (path : String) (body : Option String) : HandlerResult :=
  { recordLines := []
    errorNoted := false
    response :=
      { status := 200
        headers := [("Access-Control-Allow-Origin", "*"),
                    ("Access-Control-Allow-Methods", "POST, OPTIONS"),
                    ("Access-Control-Allow-Headers", "Content-Type")]
        body := "" } }

/-- The status page body of `do_GET` for path `/`, with the host and
port substituted as by `str.format`. -/
def statusPageBody (host : String) (port : Nat) : String :=
  "\n            <html>\n            <head><title>PoseTrainer Log Receiver</title></head>\n            <body>\n                <h1>PoseTrainer Log Receiver</h1>\n                <p>Status: Running</p>\n                <p>Listening for logs at: <code>POST /logs</code></p>\n                <p>Configure your app to send logs to:</p>\n                <pre>http://"
    ++ host ++ ":" ++ toString port
    ++ "/logs</pre>\n            </body>\n            </html>\n            "

/-- `do_GET`: path `/` answers `200` with the `text/html` status page
(`localIp` abstracts `get_local_ip()`, `port` is the bound server
port); any other path answers `404`, empty body. -/
def do_GET (path localIp : String) (port : Nat) : HandlerResult :=
  if path = "/" then
    { recordLines := []
      errorNoted := false
      response :=
        { status := 200
          headers := [("Content-type", "text/html")]
          body := statusPageBody localIp port } }
  else
    { recordLines := []
      errorNoted := false
      response := { status := 404, headers := [], body := "" } }

/-- Build the JSON bindings for an optional string field, for stating
claims about bodies with a subset of the five fields present. -/
def optField (k : String) : Option String → List (String × Json)
  | none => []
  | some s => [(k, .str s)]

/-- A JSON object body carrying exactly the subset of the five optional
fields that is `some`, each as a string. -/
def subsetBody (ts lvl msg tg er : Option String) : List (String × Json) :=
  optField "timestamp" ts ++ optField "level" lvl ++ optField "message" msg
    ++ optField "tag" tg ++ optField "error" er

/-- C1, counterexample: the body `\x7b"level": 5\x7d` decodes as a
top-level JSON object, yet the endpoint answers `400`, not `200` — the
`.get` default does not apply to a present wrong-typed field, and the
non-string level makes `.upper()` raise. -/
theorem wrong_typed_level_yields_400 :
    (do_POST "/logs" (some "12") (.ok (.obj [("level", Json.num 5)]))
        "2024-01-01T00:00:00").response.status = 400
    ∧ (do_POST "/logs" (some "12") (.ok (.obj [("level", Json.num 5)]))
        "2024-01-01T00:00:00").response.status ≠ 200 :=
  ⟨rfl, by decide⟩

/-- C1, amended: for a valid Content-Length and a body decoding as a
top-level JSON object whose `level` and `timestamp` fields are each
absent or strings, the endpoint answers `200` whatever the other fields
hold (absent fields fall back to their defaults; present fields are
used as-is whatever their type). -/
theorem object_body_with_string_level_timestamp_200
    (kvs : List (String × Json)) (clv now : String) (n : Int)
    (hcl : pyIntParse clv = some n)
    (hl : dictGet kvs "level" = none ∨ ∃ s, dictGet kvs "level" = some (.str s))
    (ht : dictGet kvs "timestamp" = none ∨ ∃ s, dictGet kvs "timestamp" = some (.str s)) :
    (do_POST "/logs" (some clv) (.ok (.obj kvs)) now).response.status = 200 := by
  rcases hl with hl | ⟨s, hl⟩ <;> rcases ht with ht | ⟨t, ht⟩ <;>
    simp [do_POST, postLogsLines, pyIntOfHeader, hcl, decodeRecord, hl, ht, pyUpper,
      formatRecord, timeSlice]

/-- C1, witness: a concrete wrong-typed `message` with `level` and
`timestamp` absent still gets `200`. -/
theorem object_body_with_string_level_timestamp_200_witness :
    pyIntParse "5" = some 5
    ∧ (do_POST "/logs" (some "5") (.ok (.obj [("message", Json.num 3)]))
        "2024-01-01T00:00:00").response.status = 200 :=
  ⟨rfl, object_body_with_string_level_timestamp_200 [("message", Json.num 3)]
    "5" "2024-01-01T00:00:00" 5 rfl (Or.inl rfl) (Or.inl rfl)⟩

/-- C2, counterexample: an OPTIONS request to a path other than `/logs`
is answered `200`, not `404` — `do_OPTIONS` never inspects the path. -/
theorem options_ignores_path_200 :
    (do_OPTIONS "/definitely-not-logs" none).response.status = 200
    ∧ (do_OPTIONS "/definitely-not-logs" none).response.status ≠ 404 :=
  ⟨rfl, by decide⟩

/-- C2, amended: POST requests to paths other than `/logs` and GET
requests to paths other than `/` are answered `404` with an empty body
and no record output, while OPTIONS requests are answered `200`
regardless of path. -/
theorem unknown_path_routing (p : String) (cl : Option String)
    (parse : Except Unit Json) (now ip : String) (port : Nat) (b : Option String) :
    (p ≠ "/logs" → do_POST p cl parse now = ⟨[], false, ⟨404, [], ""⟩⟩)
    ∧ (p ≠ "/" → do_GET p ip port = ⟨[], false, ⟨404, [], ""⟩⟩)
    ∧ (do_OPTIONS p b).response.status = 200 := by
  refine ⟨fun hp => ?_, fun hp => ?_, rfl⟩
  · simp [do_POST, hp]
  · simp [do_GET, hp]

/-- C2, witness: the routing facts at the concrete unknown path
`/nope`. -/
theorem unknown_path_routing_witness :
    ("/nope" : String) ≠ "/logs" ∧ ("/nope" : String) ≠ "/"
    ∧ do_POST "/nope" none (.error ()) "T" = ⟨[], false, ⟨404, [], ""⟩⟩
    ∧ do_GET "/nope" "1.2.3.4" 8080 = ⟨[], false, ⟨404, [], ""⟩⟩
    ∧ (do_OPTIONS "/nope" none).response.status = 200 :=
  ⟨by decide, by decide,
    (unknown_path_routing "/nope" none (.error ()) "T" "1.2.3.4" 8080 none).1 (by decide),
    (unknown_path_routing "/nope" none (.error ()) "T" "1.2.3.4" 8080 none).2.1 (by decide),
    (unknown_path_routing "/nope" none (.error ()) "T" "1.2.3.4" 8080 none).2.2⟩

/-- C3, counterexample: with current time `2024-01-02T03:04:05`, a
present but unparseable timestamp string `garbage` is kept verbatim in
the decoded record — it is not replaced by the current time. -/
theorem unparseable_timestamp_kept_verbatim :
    (decodeRecord (.obj [("timestamp", Json.str "garbage")]) "2024-01-02T03:04:05").map
        (fun r => pyStr r.timestamp) = .ok "garbage"
    ∧ ("garbage" : String) ≠ "2024-01-02T03:04:05" :=
  ⟨rfl, by decide⟩

/-- C3, amended: the timestamp defaults to the current time only when
the field is absent; any present string — parseable or not — is used
as-is. -/
theorem timestamp_default_only_when_absent (s now : String) :
    (decodeRecord (.obj []) now).map (fun r => r.timestamp) = .ok (.str now)
    ∧ (decodeRecord (.obj [("timestamp", Json.str s)]) now).map
        (fun r => r.timestamp) = .ok (.str s) :=
  ⟨rfl, rfl⟩

/-- C4, counterexample: in the primary line for the empty-object body
the level field is `INFO` followed by three spaces — the padding spaces
do not precede the level text. -/
theorem level_padding_is_right_not_left :
    (do_POST "/logs" (some "2") (.ok (.obj [])) "2024-01-02T03:04:05.678901").recordLines
      = ["03:04:05 \x1b[36mINFO   \x1b[0m "]
    ∧ ("03:04:05 \x1b[36mINFO   \x1b[0m " : String) ≠ "03:04:05 \x1b[36m   INFO\x1b[0m " :=
  ⟨rfl, by decide⟩

/-- C4, amended: in the composed primary line the uppercased level is
left-aligned in a 7-character field — the padding spaces follow the
level text, between it and the reset code that precedes the bracketed
tag and message. -/
theorem level_left_aligned_in_line (ts lvl msg now : String) :
    (do_POST "/logs" (some "2")
        (.ok (.obj [("timestamp", Json.str ts), ("level", Json.str lvl),
                    ("tag", Json.str "io"), ("message", Json.str msg)])) now).recordLines
      = [String.mk ((ts.toList.drop 11).take 8) ++ " " ++ colorFor (asciiUpper lvl)
          ++ (asciiUpper lvl ++ String.mk (List.replicate (7 - (asciiUpper lvl).length) ' '))
          ++ resetColor ++ " " ++ "[io] " ++ msg] := rfl

/-- C5: for every subset of the five optional fields present as
strings, decoding succeeds and absent fields take their defaults
(current time for the timestamp, `INFO` for the level, empty string for
the rest) and the endpoint answers `200`; in particular the
empty-object body gets `200` and one cyan `INFO` line with the
current-time clock, no tag bracket and an empty message. -/
theorem subset_decode_defaults_200 (ts lvl msg tg er : Option String) (now : String) :
    decodeRecord (.obj (subsetBody ts lvl msg tg er)) now
      = .ok ⟨.str (ts.getD now), asciiUpper (lvl.getD "INFO"), .str (msg.getD ""),
             .str (tg.getD ""), .str (er.getD "")⟩
    ∧ (do_POST "/logs" (some "2")
        (.ok (.obj (subsetBody ts lvl msg tg er))) now).response.status = 200
    ∧ (do_POST "/logs" (some "2") (.ok (.obj [])) "2024-01-02T03:04:05.678901").recordLines
        = ["03:04:05 \x1b[36mINFO   \x1b[0m "]
    ∧ (do_POST "/logs" (some "2") (.ok (.obj [])) now).response.status = 200 := by
  rcases ts with _ | ts <;> rcases lvl with _ | lvl <;> rcases msg with _ | msg <;>
    rcases tg with _ | tg <;> rcases er with _ | er <;> exact ⟨rfl, rfl, rfl, rfl⟩

/-- C6: a body that is not valid UTF-8 or not valid JSON (the
`.error ()` parse outcome), or whose top-level JSON value is not an
object, makes POST `/logs` answer `400` with an empty body and no
explicit headers. -/
theorem non_object_body_400 (cl : Option String) (now : String) (j : Json) :
    (do_POST "/logs" cl (.error ()) now).response = ⟨400, [], ""⟩
    ∧ (Json.isObj j = false → (do_POST "/logs" cl (.ok j) now).response = ⟨400, [], ""⟩) := by
  constructor
  · cases h : pyIntOfHeader cl <;> simp [do_POST, postLogsLines, h]
  · intro hj
    cases h : pyIntOfHeader cl <;> cases j <;>
      simp_all [do_POST, postLogsLines, decodeRecord, Json.isObj]

/-- C6, witness: an unparseable body and a top-level number are both
answered `400` with an empty body. -/
theorem non_object_body_400_witness :
    Json.isObj (Json.num 7) = false
    ∧ (do_POST "/logs" (some "3") (.error ()) "T").response = ⟨400, [], ""⟩
    ∧ (do_POST "/logs" (some "3") (.ok (Json.num 7)) "T").response = ⟨400, [], ""⟩ :=
  ⟨rfl, (non_object_body_400 (some "3") "T" (Json.num 7)).1,
    (non_object_body_400 (some "3") "T" (Json.num 7)).2 rfl⟩

/-- C7: whenever the decode/format pipeline succeeds, POST `/logs`
answers status `200` with a case-insensitive `Content-Type: text/plain`
header, an `Access-Control-Allow-Origin: *` header, and body exactly
`OK`. -/
theorem accepted_record_response (cl : Option String) (parse : Except Unit Json)
    (now : String) (lines : List String)
    (h : postLogsLines cl parse now = .ok lines) :
    (do_POST "/logs" cl parse now).response.status = 200
    ∧ hasHeaderCI (do_POST "/logs" cl parse now).response "Content-Type" "text/plain" = true
    ∧ hasHeaderCI (do_POST "/logs" cl parse now).response "Access-Control-Allow-Origin" "*" = true
    ∧ (do_POST "/logs" cl parse now).response.body = "OK" := by
  have hres : do_POST "/logs" cl parse now
      = { recordLines := lines, errorNoted := false,
          response := ⟨200, [("Content-type", "text/plain"),
            ("Access-Control-Allow-Origin", "*")], "OK"⟩ } := by
    simp [do_POST, h]
  rw [hres]
  exact ⟨rfl, rfl, rfl, rfl⟩

/-- C7, witness: the accepted empty-object record at a concrete time. -/
theorem accepted_record_response_witness :
    postLogsLines (some "2") (.ok (.obj [])) "2024-01-02T03:04:05.678901"
      = .ok ["03:04:05 \x1b[36mINFO   \x1b[0m "]
    ∧ ((do_POST "/logs" (some "2") (.ok (.obj []))
          "2024-01-02T03:04:05.678901").response.status = 200
        ∧ hasHeaderCI (do_POST "/logs" (some "2") (.ok (.obj []))
            "2024-01-02T03:04:05.678901").response "Content-Type" "text/plain" = true
        ∧ hasHeaderCI (do_POST "/logs" (some "2") (.ok (.obj []))
            "2024-01-02T03:04:05.678901").response "Access-Control-Allow-Origin" "*" = true
        ∧ (do_POST "/logs" (some "2") (.ok (.obj []))
            "2024-01-02T03:04:05.678901").response.body = "OK") :=
  ⟨rfl, accepted_record_response (some "2") (.ok (.obj []))
    "2024-01-02T03:04:05.678901" ["03:04:05 \x1b[36mINFO   \x1b[0m "] rfl⟩

/-- C8: every OPTIONS request — whatever its path and whether or not a
request body is present (the body is never read) — is answered `200`
with exactly the three CORS headers the handler sends and an empty
body, and no record line is printed. -/
theorem options_logs_cors (path : String) (body : Option String) :
    do_OPTIONS path body
      = ⟨[], false, ⟨200, [("Access-Control-Allow-Origin", "*"),
          ("Access-Control-Allow-Methods", "POST, OPTIONS"),
          ("Access-Control-Allow-Headers", "Content-Type")], ""⟩⟩ := rfl

/-- C9: whenever `do_POST` answers `400`, no console line for the
record has been printed — every exception point in the `try` block
precedes the first `print`. -/
theorem response_400_no_record_lines (path : String) (cl : Option String)
    (parse : Except Unit Json) (now : String)
    (h : (do_POST path cl parse now).response.status = 400) :
    (do_POST path cl parse now).recordLines = [] := by
  by_cases hp : path = "/logs"
  · subst hp
    cases hpl : postLogsLines cl parse now <;> simp [do_POST, hpl] at h ⊢
  · simp [do_POST, hp] at h

/-- C9, witness: an unparseable body gets `400` and prints no record
line. -/
theorem response_400_no_record_lines_witness :
    (do_POST "/logs" (some "2") (.error ()) "T").response.status = 400
    ∧ (do_POST "/logs" (some "2") (.error ()) "T").recordLines = [] :=
  ⟨rfl, response_400_no_record_lines "/logs" (some "2") (.error ()) "T" rfl⟩

/-- C10: a POST `/logs` request with a missing Content-Length header,
or one whose value `int` cannot parse, is answered `400` with an empty
body (the exception is caught inside the handler), with only the
operator-side error note printed. -/
theorem bad_content_length_400 (parse : Except Unit Json) (now : String) :
    do_POST "/logs" none parse now = ⟨[], true, ⟨400, [], ""⟩⟩
    ∧ ∀ s : String, pyIntParse s = none →
        do_POST "/logs" (some s) parse now = ⟨[], true, ⟨400, [], ""⟩⟩ := by
  constructor
  · simp [do_POST, postLogsLines, pyIntOfHeader]
  · intro s hs
    simp [do_POST, postLogsLines, pyIntOfHeader, hs]

/-- C10, witness: the missing header and the concrete non-numeric value
`abc` both get `400`. -/
theorem bad_content_length_400_witness :
    pyIntParse "abc" = none
    ∧ do_POST "/logs" none (.error ()) "T" = ⟨[], true, ⟨400, [], ""⟩⟩
    ∧ do_POST "/logs" (some "abc") (.error ()) "T" = ⟨[], true, ⟨400, [], ""⟩⟩ :=
  ⟨rfl, (bad_content_length_400 (.error ()) "T").1,
    (bad_content_length_400 (.error ()) "T").2 "abc" rfl⟩

end LogReceiver
